import Mathlib

/-!
Repository layer of `practice/internal/repository/mysql/author.go`.

A shallow embedding of the three repository methods of the file
(`AuthorRepository.GetByID` with its helper `getOne`, `ArticleRepository.Store`
and `ArticleRepository.Delete`) together with

* an interface for the `database/sql` handle the methods talk to
  (`DB`, `Stmt`, `Row`, `Result`), every call threading an explicit database
  state `σ`, so that the methods can be studied against *every* driver, and
* one concrete driver, `tableDB`, which keeps the `author` and `article`
  tables as lists of rows, interprets the three SQL statements on them and keeps
  count of the connections and prepared statements that are open.
-/

namespace Mysql

/-! ## Values shared by the program and the driver -/

/-- Go values of the interface type `error`.  `ErrNoRows` is the sentinel
`sql.ErrNoRows`, `driver msg` is any other error produced by `database/sql`
or the MySQL driver, and `errorf msg` is an error built by `fmt.Errorf`. -/
inductive GoError where
  | ErrNoRows
  | driver (msg : String)
  | errorf (msg : String)
deriving DecidableEq

/-- A `time.Time` instant. -/
structure Time where
  unixNano : Int
deriving DecidableEq

/-- A value travelling between the program and the database: a bound
statement argument or a column of a result row. -/
inductive Value where
  | int (n : Int)
  | str (s : String)
  | time (t : Time)
  | null
deriving DecidableEq

/-- A `context.Context`, reduced to what `database/sql` reads from it: the
value of `ctx.Err()`, non-nil once the context is cancelled or expired. -/
structure Context where
  Err : Option GoError
deriving DecidableEq

/-- Modelled from the spec: the record `domain.Author`, declared in the
`domain` package which is not part of the sources at hand ("identifier, name,
creation timestamp, update timestamp"); the field names are the ones `getOne`
takes the address of. -/
structure Author where
  ID : Int
  Name : String
  CreatedAt : Time
  UpdatedAt : Time
deriving DecidableEq

/-- Modelled from the spec: the record `domain.Article`, declared in the
`domain` package which is not part of the sources at hand ("identifier, title,
content, author reference, creation/update timestamps"); the field names are
the ones `Store` reads and writes. -/
structure Article where
  ID : Int
  Title : String
  Content : String
  Author : Author
  UpdatedAt : Time
  CreatedAt : Time
deriving DecidableEq

/-- The zero value `domain.Author{}`. -/
def Author.zero : Author :=
  { ID := 0, Name := "", CreatedAt := { unixNano := 0 }, UpdatedAt := { unixNano := 0 } }

/-! ## The SQL text of the three statements -/

/-- The tables named by the statements. -/
inductive Table where
  | author
  | article
deriving DecidableEq

/-- The column names occurring in the statements. -/
inductive Column where
  | id
  | name
  | title
  | content
  | author_id
  | created_at
  | updated_at
deriving DecidableEq

/-- The shapes of SQL text the file contains, with `?` placeholders:
`selectWhereID cols t` is `SELECT cols FROM t WHERE id=?`,
`insertSet t cols` is `INSERT t SET c1=? , c2=? , ...` and
`deleteWhereID t` is `DELETE FROM t WHERE id = ?`. -/
inductive Query where
  | selectWhereID (cols : List Column) (tbl : Table)
  | insertSet (tbl : Table) (cols : List Column)
  | deleteWhereID (tbl : Table)
deriving DecidableEq

/-! ## The `database/sql` interface -/

/-- An `sql.Result`: what `LastInsertId()` and `RowsAffected()` return. -/
structure Result where
  LastInsertId : Except GoError Int
  RowsAffected : Except GoError Int

/-- An `*sql.Row`: the deferred error of the query, the columns of the first
row of the result set when there is one, and the closing of the result set,
which gives the connection back to the pool. -/
structure Row (σ : Type) where
  err : Option GoError
  cols : Option (List Value)
  close : σ → Option GoError × σ

/-- An `*sql.Stmt`. -/
structure Stmt (σ : Type) where
  ExecContext : Context → List Value → σ → Except GoError Result × σ
  QueryRowContext : Context → List Value → σ → Row σ × σ
  Close : σ → Option GoError × σ

/-- An `*sql.DB`. -/
structure DB (σ : Type) where
  PrepareContext : Context → Query → σ → Except GoError (Stmt σ) × σ

/-- A destination pointer passed to `Scan`: how a column value is stored
through it into the record `α` it points into, `none` when the value cannot be
converted to the pointee type. -/
structure Dest (α : Type) where
  assign : Value → α → Option α

/-- A pointer to an `int64` field. -/
def ptrInt64 {α : Type} (set : α → Int → α) : Dest α :=
  { assign := fun v r => match v with
      | .int n => some (set r n)
      | _ => none }

/-- A pointer to a `string` field. -/
def ptrString {α : Type} (set : α → String → α) : Dest α :=
  { assign := fun v r => match v with
      | .str x => some (set r x)
      | _ => none }

/-- A pointer to a `time.Time` field. -/
def ptrTime {α : Type} (set : α → Time → α) : Dest α :=
  { assign := fun v r => match v with
      | .time t => some (set r t)
      | _ => none }

/-- The error of `Rows.Scan` for a column that cannot be stored. -/
def errScanConvert : GoError := .driver "sql: Scan error: unsupported Scan, storing driver.Value into type"

/-- The error of `Rows.Scan` for a wrong number of destinations. -/
def errScanArity : GoError := .driver "sql: expected a different number of destination arguments in Scan"

/-- The column-by-column copy of `Rows.Scan`: destinations are filled from left
to right, and the first column that cannot be converted stops the copy, the
destinations before it staying assigned. -/
def scanInto {α : Type} : List (Dest α) → List Value → α → α × Option GoError
  | [], _, res => (res, none)
  | _ :: _, [], res => (res, some errScanArity)
  | d :: ds, v :: vs, res =>
    match d.assign v res with
    | some res1 => scanInto ds vs res1
    | none => (res, some errScanConvert)

/-- The method `(*sql.Row).Scan`: a deferred query error is returned as is.
On an empty result set `Next` closes the result set and `Rows.Err` reports the
error of that closing, so the closing error is returned if there is one and
`sql.ErrNoRows` otherwise.  On a row, the columns are copied into the
destinations; a copy that fails returns its error, the closing being deferred
and its error dropped; a copy that succeeds returns the error of closing the
result set.  The result set is closed on every path that had one. -/
def Row.Scan {σ α : Type} (r : Row σ) (dests : List (Dest α)) (res : α) (s : σ) :
    (α × Option GoError) × σ :=
  match r.err with
  | some e => ((res, some e), s)
  | none =>
    match r.cols with
    | none =>
      match (r.close s).1 with
      | some e => ((res, some e), (r.close s).2)
      | none => ((res, some .ErrNoRows), (r.close s).2)
    | some vs =>
      if vs.length ≠ dests.length then ((res, some errScanArity), (r.close s).2)
      else
        match scanInto dests vs res with
        | (res1, some e) => ((res1, some e), (r.close s).2)
        | (res1, none) => ((res1, (r.close s).1), (r.close s).2)

/-! ## The repository methods -/

/-- The struct `AuthorRepository`. -/
structure AuthorRepository (σ : Type) where
  DB : DB σ

/-- Modelled from the spec: the struct `ArticleRepository`, whose declaration
is not part of the sources at hand ("each holding a database handle"); `Store`
and `Delete` reach the handle as `m.Conn`. -/
structure ArticleRepository (σ : Type) where
  Conn : DB σ

/-- The function `NewAuthorRepository`. -/
def NewAuthorRepository {σ : Type} (db : DB σ) : AuthorRepository σ :=
  { DB := db }

/-- The destinations `&res.ID, &res.Name, &res.CreatedAt, &res.UpdatedAt` that
`getOne` hands to `Scan`, in that order. -/
def getOneDests : List (Dest Author) :=
  [ ptrInt64 (fun r v => { r with ID := v }),
    ptrString (fun r v => { r with Name := v }),
    ptrTime (fun r v => { r with CreatedAt := v }),
    ptrTime (fun r v => { r with UpdatedAt := v }) ]

/-- The method `AuthorRepository.getOne`: returns `res` and `err`. -/
def AuthorRepository.getOne {σ : Type} (m : AuthorRepository σ) (ctx : Context)
    (query : Query) (args : List Value) (s : σ) : (Author × Option GoError) × σ :=
  match m.DB.PrepareContext ctx query s with
  | (.error err, s1) => ((Author.zero, some err), s1)
  | (.ok stmt, s1) =>
    match stmt.QueryRowContext ctx args s1 with
    | (row, s2) => row.Scan getOneDests Author.zero s2

/-- The text `SELECT id, name, created_at, updated_at FROM author WHERE id=?`. -/
def getByIDQuery : Query :=
  .selectWhereID [.id, .name, .created_at, .updated_at] .author

/-- The method `AuthorRepository.GetByID`. -/
def AuthorRepository.GetByID {σ : Type} (m : AuthorRepository σ) (ctx : Context)
    (id : Int) (s : σ) : (Author × Option GoError) × σ :=
  m.getOne ctx getByIDQuery [.int id] s

/-- The text
`INSERT  article SET title=? , content=? , author_id=?, updated_at=? , created_at=?`. -/
def storeQuery : Query :=
  .insertSet .article [.title, .content, .author_id, .updated_at, .created_at]

/-- The arguments `a.Title, a.Content, a.Author.ID, a.UpdatedAt, a.CreatedAt`
that `Store` binds, in that order. -/
def storeArgs (a : Article) : List Value :=
  [.str a.Title, .str a.Content, .int a.Author.ID, .time a.UpdatedAt, .time a.CreatedAt]

/-- The method `ArticleRepository.Store`: returns `err` together with the
record `*a` as the call leaves it. -/
def ArticleRepository.Store {σ : Type} (m : ArticleRepository σ) (ctx : Context)
    (a : Article) (s : σ) : (Option GoError × Article) × σ :=
  match m.Conn.PrepareContext ctx storeQuery s with
  | (.error err, s1) => ((some err, a), s1)
  | (.ok stmt, s1) =>
    match stmt.ExecContext ctx (storeArgs a) s1 with
    | (.error err, s2) => ((some err, a), s2)
    | (.ok res, s2) =>
      match res.LastInsertId with
      | .error err => ((some err, a), s2)
      | .ok lastID => ((none, { a with ID := lastID }), s2)

/-- The text `DELETE FROM article WHERE id = ?`. -/
def deleteQuery : Query :=
  .deleteWhereID .article

/-- The error `fmt.Errorf("weird  Behavior. Total Affected: %d", rowsAfected)`. -/
def weirdBehavior (rowsAfected : Int) : GoError :=
  .errorf ("weird  Behavior. Total Affected: " ++ toString rowsAfected)

/-- The method `ArticleRepository.Delete`. -/
def ArticleRepository.Delete {σ : Type} (m : ArticleRepository σ) (ctx : Context)
    (id : Int) (s : σ) : Option GoError × σ :=
  match m.Conn.PrepareContext ctx deleteQuery s with
  | (.error err, s1) => (some err, s1)
  | (.ok stmt, s1) =>
    match stmt.ExecContext ctx [.int id] s1 with
    | (.error err, s2) => (some err, s2)
    | (.ok res, s2) =>
      match res.RowsAffected with
      | .error err => (some err, s2)
      | .ok rowsAfected =>
        if rowsAfected ≠ 1 then (some (weirdBehavior rowsAfected), s2)
        else (none, s2)

/-! ## A driver over in-memory tables

The MySQL server and `database/sql` are not part of the repository.  `tableDB`
is a reference driver for the interface above: the two tables are lists of
rows, the three statement shapes are interpreted on them, every step can be
made to fail (through the context or through `Faults`), and the driver keeps
track of the connections checked out of the pool and of the prepared
statements that have not been closed. -/

/-- A row of the table `author`: an integer column `id`, a string column
`name` and two timestamp columns, each holding a value or `NULL` (`none`). -/
structure AuthorRow where
  id : Option Int
  name : Option String
  created_at : Option Time
  updated_at : Option Time
deriving DecidableEq

/-- A row of the table `article`. -/
structure ArticleRow where
  id : Int
  title : String
  content : String
  author_id : Int
  updated_at : Time
  created_at : Time
deriving DecidableEq

/-- The value the driver hands over for an integer column. -/
def Value.ofInt : Option Int → Value
  | some n => .int n
  | none => .null

/-- The value the driver hands over for a string column. -/
def Value.ofString : Option String → Value
  | some x => .str x
  | none => .null

/-- The value the driver hands over for a timestamp column. -/
def Value.ofTime : Option Time → Value
  | some t => .time t
  | none => .null

/-- Reading a column of an `author` row. -/
def AuthorRow.get (r : AuthorRow) : Column → Option Value
  | .id => some (Value.ofInt r.id)
  | .name => some (Value.ofString r.name)
  | .created_at => some (Value.ofTime r.created_at)
  | .updated_at => some (Value.ofTime r.updated_at)
  | _ => none

/-- Reading a column of an `article` row. -/
def ArticleRow.get (r : ArticleRow) : Column → Option Value
  | .id => some (.int r.id)
  | .title => some (.str r.title)
  | .content => some (.str r.content)
  | .author_id => some (.int r.author_id)
  | .updated_at => some (.time r.updated_at)
  | .created_at => some (.time r.created_at)
  | _ => none

/-- Writing a column of an `author` row; `none` when the table has no such
column or the value is not of the type of the column. -/
def AuthorRow.set (r : AuthorRow) : Column → Value → Option AuthorRow
  | .id, .int n => some { r with id := some n }
  | .id, .null => some { r with id := none }
  | .name, .str x => some { r with name := some x }
  | .name, .null => some { r with name := none }
  | .created_at, .time t => some { r with created_at := some t }
  | .created_at, .null => some { r with created_at := none }
  | .updated_at, .time t => some { r with updated_at := some t }
  | .updated_at, .null => some { r with updated_at := none }
  | _, _ => none

/-- Writing a column of an `article` row; `none` when the table has no such
column or the value is not of the type of the column. -/
def ArticleRow.set (r : ArticleRow) : Column → Value → Option ArticleRow
  | .id, .int n => some { r with id := n }
  | .title, .str x => some { r with title := x }
  | .content, .str x => some { r with content := x }
  | .author_id, .int n => some { r with author_id := n }
  | .updated_at, .time t => some { r with updated_at := t }
  | .created_at, .time t => some { r with created_at := t }
  | _, _ => none

/-- The select list of a query evaluated on one row, column by column and in
the order of the list. -/
def project (get : Column → Option Value) : List Column → Option (List Value)
  | [] => some []
  | c :: cs =>
    match get c, project get cs with
    | some v, some vs => some (v :: vs)
    | _, _ => none

/-- The `SET c1=? , c2=? , ...` list of an insert applied to a row: the i-th
argument goes to the i-th column named. -/
def assignAll {ρ : Type} (set : ρ → Column → Value → Option ρ) :
    List Column → List Value → ρ → Option ρ
  | [], [], r => some r
  | c :: cs, v :: vs, r =>
    match set r c v with
    | some r1 => assignAll set cs vs r1
    | none => none
  | _, _, _ => none

/-- The condition `id = ?` of a `WHERE` clause for the bound argument `v`. -/
def idIs (v : Value) (id : Int) : Bool :=
  decide (v = .int id)

/-- The condition `id = ?` on a column that may hold `NULL`: a `NULL` is equal
to nothing. -/
def idIsCol (v : Value) : Option Int → Bool
  | some id => idIs v id
  | none => false

/-- What the driver sends for a bound `time.Time`: the instant cut down to
whole microseconds. -/
def truncMicro (t : Time) : Time :=
  { unixNano := t.unixNano - t.unixNano % 1000 }

/-- A bound argument as it reaches a column: a time is cut down to whole
microseconds by the driver and then rounded by the column (`col`) to the
precision it was declared with; other values are stored as they are. -/
def storeValue (col : Time → Time) : Value → Value
  | .time t => .time (col (truncMicro t))
  | v => v

/-- Whether every column a statement names belongs to its table. -/
def Query.valid : Query → Bool
  | .selectWhereID cols .author => cols.all fun c => (AuthorRow.get ⟨none, none, none, none⟩ c).isSome
  | .selectWhereID cols .article => cols.all fun c => (ArticleRow.get ⟨0, "", "", 0, ⟨0⟩, ⟨0⟩⟩ c).isSome
  | .insertSet .author cols => cols.all fun c => (AuthorRow.get ⟨none, none, none, none⟩ c).isSome
  | .insertSet .article cols => cols.all fun c => (ArticleRow.get ⟨0, "", "", 0, ⟨0⟩, ⟨0⟩⟩ c).isSome
  | .deleteWhereID _ => true

/-- The failures injected into the driver for one call: the error, if any,
with which `PrepareContext`, `ExecContext`, the query behind
`QueryRowContext`, the accessors of the `sql.Result` and the closing of a
result set fail. -/
structure Faults where
  prepare : Option GoError
  exec : Option GoError
  query : Option GoError
  result : Option GoError
  rowsClose : Option GoError
deriving DecidableEq

/-- No injected failure. -/
def noFaults : Faults :=
  { prepare := Option.none, exec := Option.none, query := Option.none,
    result := Option.none, rowsClose := Option.none }

/-- The state of the database and of its connection pool: the two tables, the
identifier the next insert into each table is given, the rounding a timestamp
column applies to the microsecond value it is sent (the table declarations are
not part of the sources, so the declared precision is left open), the handles
of the prepared statements that are open, the next free handle, and the number
of connections checked out of the pool. -/
structure MySQL where
  author : List AuthorRow
  article : List ArticleRow
  authorAutoInc : Int
  articleAutoInc : Int
  columnTime : Time → Time
  stmts : List Nat
  nextStmt : Nat
  conns : Nat

/-- A connection is checked out of the pool. -/
def MySQL.acquire (s : MySQL) : MySQL :=
  { s with conns := s.conns + 1 }

/-- A connection is given back to the pool. -/
def MySQL.release (s : MySQL) : MySQL :=
  { s with conns := s.conns - 1 }

/-- The error for a statement executed with the wrong number of arguments or
with an argument of the wrong type. -/
def errBind : GoError := .driver "sql: statement arguments do not match its placeholders"

/-- The error for a statement naming a column its table does not have. -/
def errUnknownColumn : GoError := .driver "Error 1054: Unknown column"

/-- The error for a statement used after `Close`. -/
def errStmtClosed : GoError := .driver "sql: statement is closed"

/-- The effect of a statement on the tables, with the pair of the inserted
identifier and the number of rows affected that the server reports.  An insert
stores each bound argument in the column of its placeholder, in the form
`storeValue` gives it. -/
def MySQL.run (q : Query) (args : List Value) (s : MySQL) : Except GoError (Int × Int) × MySQL :=
  match q, args with
  | .deleteWhereID .article, [v] =>
    (.ok (0, ((s.article.filter fun r => idIs v r.id).length : Int)),
      { s with article := s.article.filter fun r => !(idIs v r.id) })
  | .deleteWhereID .author, [v] =>
    (.ok (0, ((s.author.filter fun r => idIsCol v r.id).length : Int)),
      { s with author := s.author.filter fun r => !(idIsCol v r.id) })
  | .insertSet .article cols, vs =>
    match assignAll ArticleRow.set cols (vs.map (storeValue s.columnTime))
        ⟨s.articleAutoInc, "", "", 0, ⟨0⟩, ⟨0⟩⟩ with
    | some r =>
      (.ok (r.id, 1), { s with article := s.article ++ [r], articleAutoInc := s.articleAutoInc + 1 })
    | none => (.error errBind, s)
  | .insertSet .author cols, vs =>
    match assignAll AuthorRow.set cols (vs.map (storeValue s.columnTime))
        ⟨some s.authorAutoInc, none, none, none⟩ with
    | some r =>
      (.ok (r.id.getD 0, 1),
        { s with author := s.author ++ [r], authorAutoInc := s.authorAutoInc + 1 })
    | none => (.error errBind, s)
  | .selectWhereID _ _, [_] => (.ok (0, 0), s)
  | _, _ => (.error errBind, s)

/-- The first row a statement selects, projected on its select list; a
statement that is not a `SELECT` is run and selects nothing. -/
def MySQL.select (q : Query) (args : List Value) (s : MySQL) :
    Except GoError (Option (List Value)) × MySQL :=
  match q, args with
  | .selectWhereID cols .author, [v] =>
    match s.author.find? fun r => idIsCol v r.id with
    | some r =>
      match project r.get cols with
      | some vs => (.ok (some vs), s)
      | Option.none => (.error errUnknownColumn, s)
    | Option.none => (.ok Option.none, s)
  | .selectWhereID cols .article, [v] =>
    match s.article.find? fun r => idIs v r.id with
    | some r =>
      match project r.get cols with
      | some vs => (.ok (some vs), s)
      | Option.none => (.error errUnknownColumn, s)
    | Option.none => (.ok Option.none, s)
  | .selectWhereID _ _, _ => (.error errBind, s)
  | q, vs =>
    match s.run q vs with
    | (.ok _, s1) => (.ok Option.none, s1)
    | (.error e, s1) => (.error e, s1)

/-- The `sql.Result` of an executed statement. -/
def mkResult (f : Faults) (lastID rows : Int) : Result :=
  match f.result with
  | some e => { LastInsertId := .error e, RowsAffected := .error e }
  | Option.none => { LastInsertId := .ok lastID, RowsAffected := .ok rows }

/-- A row that only carries an error: no result set, nothing to close. -/
def errRow (e : GoError) : Row MySQL :=
  { err := some e, cols := Option.none, close := fun s => (Option.none, s) }

/-- The prepared statement with handle `h` for the text `q`.  Executing
checks a connection out for the duration of the call; querying checks one out
and leaves it with the returned row, whose closing gives it back.  `Close`
drops the handle. -/
def tableStmt (f : Faults) (q : Query) (h : Nat) : Stmt MySQL :=
  { ExecContext := fun ctx args s =>
      if h ∈ s.stmts then
        match ctx.Err with
        | some e => (.error e, s)
        | Option.none =>
          match f.exec with
          | some e => (.error e, s)
          | Option.none =>
            match s.acquire.run q args with
            | (.ok (lastID, n), s1) => (.ok (mkResult f lastID n), s1.release)
            | (.error e, s1) => (.error e, s1.release)
      else (.error errStmtClosed, s)
    QueryRowContext := fun ctx args s =>
      if h ∈ s.stmts then
        match ctx.Err with
        | some e => (errRow e, s)
        | Option.none =>
          match f.query with
          | some e => (errRow e, s)
          | Option.none =>
            match s.acquire.select q args with
            | (.ok cols, s1) =>
              ({ err := Option.none, cols := cols, close := fun t => (f.rowsClose, t.release) }, s1)
            | (.error e, s1) => (errRow e, s1.release)
      else (errRow errStmtClosed, s)
    Close := fun s => (Option.none, { s with stmts := s.stmts.erase h }) }

/-- The handle `*sql.DB` of the table driver.  `PrepareContext` returns
`ctx.Err()` for a context that is done, else the injected failure if any, else
it checks a connection out, prepares the statement on it, gives the
connection back and registers a fresh statement handle as open. -/
def tableDB (f : Faults) : DB MySQL :=
  { PrepareContext := fun ctx q s =>
      match ctx.Err with
      | some e => (.error e, s)
      | Option.none =>
        match f.prepare with
        | some e => (.error e, s)
        | Option.none =>
          if q.valid then
            (.ok (tableStmt f q s.nextStmt),
              { s.acquire with stmts := s.nextStmt :: s.stmts, nextStmt := s.nextStmt + 1 }.release)
          else (.error errUnknownColumn, s) }

/-- The context `context.Background()`. -/
def background : Context := { Err := Option.none }

/-- A context that has been cancelled: `ctx.Err()` is `context.Canceled`. -/
def cancelled : Context := { Err := some (.driver "context canceled") }

/-! ## Concrete inputs -/

/-- A database with three authors, the third without a name, and two
articles; its timestamp columns keep whole microseconds; nothing is open. -/
def demo : MySQL :=
  { author :=
      [⟨some 1, some "ann", some ⟨10000⟩, some ⟨20000⟩⟩,
        ⟨some 2, some "bob", some ⟨11000⟩, some ⟨21000⟩⟩,
        ⟨some 3, none, some ⟨12000⟩, some ⟨22000⟩⟩]
    article :=
      [⟨1, "first", "one", 1, ⟨5000⟩, ⟨6000⟩⟩, ⟨2, "second", "two", 1, ⟨7000⟩, ⟨8000⟩⟩]
    authorAutoInc := 4
    articleAutoInc := 3
    columnTime := fun t => t
    stmts := []
    nextStmt := 0
    conns := 0 }

/-- An article by the second author of `demo`, not stored yet, with
timestamps that are not whole microseconds. -/
def demoArticle : Article :=
  { ID := 7, Title := "third", Content := "three", Author := ⟨2, "bob", ⟨11000⟩, ⟨21000⟩⟩,
    UpdatedAt := ⟨2100⟩, CreatedAt := ⟨1050⟩ }

/-- Some error of the driver. -/
def badConn : GoError := .driver "driver: bad connection"

/-- The driver fault: `ExecContext` fails. -/
def failingExec : Faults := { noFaults with exec := some badConn }

/-- The driver fault: the query behind `QueryRowContext` fails. -/
def failingQuery : Faults := { noFaults with query := some badConn }

/-- The driver fault: `LastInsertId` and `RowsAffected` fail. -/
def failingResult : Faults := { noFaults with result := some badConn }

/-- A handle on which every statement prepares and executes without error and
whose `sql.Result` reports 0 from `LastInsertId()`, the value the MySQL driver
reports when the insert generated no AUTO_INCREMENT value. -/
def zeroIDConn : DB Unit :=
  { PrepareContext := fun _ _ s =>
      (.ok
        { ExecContext := fun _ _ t => (.ok { LastInsertId := .ok 0, RowsAffected := .ok 1 }, t)
          QueryRowContext := fun _ _ t =>
            ({ err := none, cols := none, close := fun u => (none, u) }, t)
          Close := fun t => (none, t) }, s) }

/-! ## Outcomes of the methods in terms of the driver steps -/

theorem Store_prepare_error {σ : Type} (m : ArticleRepository σ) (ctx : Context) (a : Article)
    (s s1 : σ) (e : GoError) (hp : m.Conn.PrepareContext ctx storeQuery s = (.error e, s1)) :
    m.Store ctx a s = ((some e, a), s1) := by
  simp [ArticleRepository.Store, hp]

theorem Store_exec_error {σ : Type} (m : ArticleRepository σ) (ctx : Context) (a : Article)
    (s s1 s2 : σ) (stmt : Stmt σ) (e : GoError)
    (hp : m.Conn.PrepareContext ctx storeQuery s = (.ok stmt, s1))
    (he : stmt.ExecContext ctx (storeArgs a) s1 = (.error e, s2)) :
    m.Store ctx a s = ((some e, a), s2) := by
  simp [ArticleRepository.Store, hp, he]

theorem Store_lastInsertId_error {σ : Type} (m : ArticleRepository σ) (ctx : Context)
    (a : Article) (s s1 s2 : σ) (stmt : Stmt σ) (res : Result) (e : GoError)
    (hp : m.Conn.PrepareContext ctx storeQuery s = (.ok stmt, s1))
    (he : stmt.ExecContext ctx (storeArgs a) s1 = (.ok res, s2))
    (hl : res.LastInsertId = .error e) :
    m.Store ctx a s = ((some e, a), s2) := by
  simp [ArticleRepository.Store, hp, he, hl]

theorem Store_ok {σ : Type} (m : ArticleRepository σ) (ctx : Context)
    (a : Article) (s s1 s2 : σ) (stmt : Stmt σ) (res : Result) (lastID : Int)
    (hp : m.Conn.PrepareContext ctx storeQuery s = (.ok stmt, s1))
    (he : stmt.ExecContext ctx (storeArgs a) s1 = (.ok res, s2))
    (hl : res.LastInsertId = .ok lastID) :
    m.Store ctx a s = ((none, { a with ID := lastID }), s2) := by
  simp [ArticleRepository.Store, hp, he, hl]

/-- The four ways a call of `Store` can go. -/
theorem Store_cases {σ : Type} (m : ArticleRepository σ) (ctx : Context) (a : Article) (s : σ) :
    (∃ e s1, m.Conn.PrepareContext ctx storeQuery s = (.error e, s1) ∧
      m.Store ctx a s = ((some e, a), s1)) ∨
    (∃ stmt s1 e s2, m.Conn.PrepareContext ctx storeQuery s = (.ok stmt, s1) ∧
      stmt.ExecContext ctx (storeArgs a) s1 = (.error e, s2) ∧
      m.Store ctx a s = ((some e, a), s2)) ∨
    (∃ stmt s1 res s2 e, m.Conn.PrepareContext ctx storeQuery s = (.ok stmt, s1) ∧
      stmt.ExecContext ctx (storeArgs a) s1 = (.ok res, s2) ∧ res.LastInsertId = .error e ∧
      m.Store ctx a s = ((some e, a), s2)) ∨
    (∃ stmt s1 res s2 lastID, m.Conn.PrepareContext ctx storeQuery s = (.ok stmt, s1) ∧
      stmt.ExecContext ctx (storeArgs a) s1 = (.ok res, s2) ∧ res.LastInsertId = .ok lastID ∧
      m.Store ctx a s = ((none, { a with ID := lastID }), s2)) := by
  rcases hp : m.Conn.PrepareContext ctx storeQuery s with ⟨e | stmt, s1⟩
  · exact Or.inl ⟨e, s1, rfl, Store_prepare_error m ctx a s s1 e hp⟩
  · rcases he : stmt.ExecContext ctx (storeArgs a) s1 with ⟨e | res, s2⟩
    · exact Or.inr (Or.inl ⟨stmt, s1, e, s2, rfl, he, Store_exec_error m ctx a s s1 s2 stmt e hp he⟩)
    · rcases hl : res.LastInsertId with e | lastID
      · exact Or.inr (Or.inr (Or.inl ⟨stmt, s1, res, s2, e, rfl, he, hl,
          Store_lastInsertId_error m ctx a s s1 s2 stmt res e hp he hl⟩))
      · exact Or.inr (Or.inr (Or.inr ⟨stmt, s1, res, s2, lastID, rfl, he, hl,
          Store_ok m ctx a s s1 s2 stmt res lastID hp he hl⟩))

theorem Delete_prepare_error {σ : Type} (m : ArticleRepository σ) (ctx : Context) (id : Int)
    (s s1 : σ) (e : GoError) (hp : m.Conn.PrepareContext ctx deleteQuery s = (.error e, s1)) :
    m.Delete ctx id s = (some e, s1) := by
  simp [ArticleRepository.Delete, hp]

theorem Delete_exec_error {σ : Type} (m : ArticleRepository σ) (ctx : Context) (id : Int)
    (s s1 s2 : σ) (stmt : Stmt σ) (e : GoError)
    (hp : m.Conn.PrepareContext ctx deleteQuery s = (.ok stmt, s1))
    (he : stmt.ExecContext ctx [.int id] s1 = (.error e, s2)) :
    m.Delete ctx id s = (some e, s2) := by
  simp [ArticleRepository.Delete, hp, he]

theorem Delete_rowsAffected_error {σ : Type} (m : ArticleRepository σ) (ctx : Context)
    (id : Int) (s s1 s2 : σ) (stmt : Stmt σ) (res : Result) (e : GoError)
    (hp : m.Conn.PrepareContext ctx deleteQuery s = (.ok stmt, s1))
    (he : stmt.ExecContext ctx [.int id] s1 = (.ok res, s2))
    (hr : res.RowsAffected = .error e) :
    m.Delete ctx id s = (some e, s2) := by
  simp [ArticleRepository.Delete, hp, he, hr]

theorem Delete_counted {σ : Type} (m : ArticleRepository σ) (ctx : Context)
    (id : Int) (s s1 s2 : σ) (stmt : Stmt σ) (res : Result) (n : Int)
    (hp : m.Conn.PrepareContext ctx deleteQuery s = (.ok stmt, s1))
    (he : stmt.ExecContext ctx [.int id] s1 = (.ok res, s2))
    (hr : res.RowsAffected = .ok n) :
    m.Delete ctx id s = (if n ≠ 1 then some (weirdBehavior n) else none, s2) := by
  by_cases hn : n = 1 <;> simp [ArticleRepository.Delete, hp, he, hr, hn]

/-- The four ways a call of `Delete` can go. -/
theorem Delete_cases {σ : Type} (m : ArticleRepository σ) (ctx : Context) (id : Int) (s : σ) :
    (∃ e s1, m.Conn.PrepareContext ctx deleteQuery s = (.error e, s1) ∧
      m.Delete ctx id s = (some e, s1)) ∨
    (∃ stmt s1 e s2, m.Conn.PrepareContext ctx deleteQuery s = (.ok stmt, s1) ∧
      stmt.ExecContext ctx [.int id] s1 = (.error e, s2) ∧
      m.Delete ctx id s = (some e, s2)) ∨
    (∃ stmt s1 res s2 e, m.Conn.PrepareContext ctx deleteQuery s = (.ok stmt, s1) ∧
      stmt.ExecContext ctx [.int id] s1 = (.ok res, s2) ∧ res.RowsAffected = .error e ∧
      m.Delete ctx id s = (some e, s2)) ∨
    (∃ stmt s1 res s2 n, m.Conn.PrepareContext ctx deleteQuery s = (.ok stmt, s1) ∧
      stmt.ExecContext ctx [.int id] s1 = (.ok res, s2) ∧ res.RowsAffected = .ok n ∧
      m.Delete ctx id s = (if n ≠ 1 then some (weirdBehavior n) else none, s2)) := by
  rcases hp : m.Conn.PrepareContext ctx deleteQuery s with ⟨e | stmt, s1⟩
  · exact Or.inl ⟨e, s1, rfl, Delete_prepare_error m ctx id s s1 e hp⟩
  · rcases he : stmt.ExecContext ctx [.int id] s1 with ⟨e | res, s2⟩
    · exact Or.inr (Or.inl ⟨stmt, s1, e, s2, rfl, he, Delete_exec_error m ctx id s s1 s2 stmt e hp he⟩)
    · rcases hr : res.RowsAffected with e | n
      · exact Or.inr (Or.inr (Or.inl ⟨stmt, s1, res, s2, e, rfl, he, hr,
          Delete_rowsAffected_error m ctx id s s1 s2 stmt res e hp he hr⟩))
      · exact Or.inr (Or.inr (Or.inr ⟨stmt, s1, res, s2, n, rfl, he, hr,
          Delete_counted m ctx id s s1 s2 stmt res n hp he hr⟩))

theorem getOne_prepare_error {σ : Type} (m : AuthorRepository σ) (ctx : Context) (query : Query)
    (args : List Value) (s s1 : σ) (e : GoError)
    (hp : m.DB.PrepareContext ctx query s = (.error e, s1)) :
    m.getOne ctx query args s = ((Author.zero, some e), s1) := by
  simp [AuthorRepository.getOne, hp]

theorem getOne_scanned {σ : Type} (m : AuthorRepository σ) (ctx : Context) (query : Query)
    (args : List Value) (s s1 : σ) (stmt : Stmt σ)
    (hp : m.DB.PrepareContext ctx query s = (.ok stmt, s1)) :
    m.getOne ctx query args s =
      (stmt.QueryRowContext ctx args s1).1.Scan getOneDests Author.zero
        (stmt.QueryRowContext ctx args s1).2 := by
  simp [AuthorRepository.getOne, hp]

/-- Claim C1. On a handle where `PrepareContext`, `ExecContext` and
`RowsAffected` all succeed, `Delete` returns a non-nil error exactly when the
reported count of affected rows differs from 1 (zero, negative or above one),
and nil exactly when it is 1; the error is the one built from the count. -/
theorem Delete_error_iff_rows_ne_one {σ : Type} (m : ArticleRepository σ) (ctx : Context)
    (id : Int) (s s1 s2 : σ) (stmt : Stmt σ) (res : Result) (n : Int)
    (hp : m.Conn.PrepareContext ctx deleteQuery s = (.ok stmt, s1))
    (he : stmt.ExecContext ctx [.int id] s1 = (.ok res, s2))
    (hr : res.RowsAffected = .ok n) :
    ((m.Delete ctx id s).1 ≠ none ↔ n ≠ 1) ∧ ((m.Delete ctx id s).1 = none ↔ n = 1) ∧
      (n ≠ 1 → (m.Delete ctx id s).1 = some (weirdBehavior n)) := by
  rw [Delete_counted m ctx id s s1 s2 stmt res n hp he hr]
  by_cases hn : n = 1 <;> simp [hn]

/-- Claim C7. When `Store` returns nil, the driver steps all succeeded, the `ID`
of the record is the value `LastInsertId` reported, and `Title`, `Content`,
`Author`, `UpdatedAt` and `CreatedAt` are as before the call. -/
theorem Store_nil_sets_ID_only {σ : Type} (m : ArticleRepository σ) (ctx : Context)
    (a : Article) (s : σ) (h : (m.Store ctx a s).1.1 = none) :
    ∃ stmt s1 res s2 lastID, m.Conn.PrepareContext ctx storeQuery s = (.ok stmt, s1) ∧
      stmt.ExecContext ctx (storeArgs a) s1 = (.ok res, s2) ∧ res.LastInsertId = .ok lastID ∧
      (m.Store ctx a s).1.2.ID = lastID ∧
      (m.Store ctx a s).1.2.Title = a.Title ∧
      (m.Store ctx a s).1.2.Content = a.Content ∧
      (m.Store ctx a s).1.2.Author = a.Author ∧
      (m.Store ctx a s).1.2.UpdatedAt = a.UpdatedAt ∧
      (m.Store ctx a s).1.2.CreatedAt = a.CreatedAt := by
  rcases Store_cases m ctx a s with ⟨e, s1, _, hs⟩ | ⟨stmt, s1, e, s2, _, _, hs⟩ |
    ⟨stmt, s1, res, s2, e, _, _, _, hs⟩ | ⟨stmt, s1, res, s2, lastID, hp, he, hl, hs⟩
  · rw [hs] at h; simp at h
  · rw [hs] at h; simp at h
  · rw [hs] at h; simp at h
  · exact ⟨stmt, s1, res, s2, lastID, hp, he, hl, by simp [hs]⟩

/-- Claim C8. When `Store` returns a non-nil error, whichever of `PrepareContext`,
`ExecContext` and `LastInsertId` it comes from, the record is left as it was:
every field, `ID` included, has the value it had before the call. -/
theorem Store_error_leaves_record {σ : Type} (m : ArticleRepository σ) (ctx : Context)
    (a : Article) (s : σ) (h : (m.Store ctx a s).1.1 ≠ none) :
    (m.Store ctx a s).1.2 = a := by
  rcases Store_cases m ctx a s with ⟨e, s1, _, hs⟩ | ⟨stmt, s1, e, s2, _, _, hs⟩ |
    ⟨stmt, s1, res, s2, e, _, _, _, hs⟩ | ⟨stmt, s1, res, s2, lastID, hp, he, hl, hs⟩
  · rw [hs]
  · rw [hs]
  · rw [hs]
  · rw [hs] at h; simp at h

/-- Claim C4, as amended. When `Store` returns nil, the `ID` of the record is
non-zero exactly when the identifier reported by `LastInsertId` is non-zero. -/
theorem Store_nil_ID_nonzero_iff {σ : Type} (m : ArticleRepository σ) (ctx : Context)
    (a : Article) (s : σ) (h : (m.Store ctx a s).1.1 = none) :
    ∃ stmt s1 res s2 lastID, m.Conn.PrepareContext ctx storeQuery s = (.ok stmt, s1) ∧
      stmt.ExecContext ctx (storeArgs a) s1 = (.ok res, s2) ∧ res.LastInsertId = .ok lastID ∧
      ((m.Store ctx a s).1.2.ID ≠ 0 ↔ lastID ≠ 0) := by
  rcases Store_cases m ctx a s with ⟨e, s1, _, hs⟩ | ⟨stmt, s1, e, s2, _, _, hs⟩ |
    ⟨stmt, s1, res, s2, e, _, _, _, hs⟩ | ⟨stmt, s1, res, s2, lastID, hp, he, hl, hs⟩
  · rw [hs] at h; simp at h
  · rw [hs] at h; simp at h
  · rw [hs] at h; simp at h
  · exact ⟨stmt, s1, res, s2, lastID, hp, he, hl, by simp [hs]⟩

/-! ## The table driver -/

theorem idIs_int (a b : Int) : idIs (.int a) b = decide (a = b) := by
  simp [idIs]

theorem idIsCol_int (a : Int) (c : Option Int) : idIsCol (.int a) c = decide (c = some a) := by
  cases c <;> simp [idIsCol, idIs, eq_comm]

theorem scanInto_author (i : Int) (n : String) (c u : Time) :
    scanInto getOneDests [.int i, .str n, .time c, .time u] Author.zero =
      ({ ID := i, Name := n, CreatedAt := c, UpdatedAt := u }, none) := by
  simp [scanInto, getOneDests, ptrInt64, ptrString, ptrTime, Author.zero]

theorem scanInto_author_null (r : AuthorRow)
    (h : r.id = none ∨ r.name = none ∨ r.created_at = none ∨ r.updated_at = none) :
    (scanInto getOneDests
      [Value.ofInt r.id, Value.ofString r.name, Value.ofTime r.created_at,
        Value.ofTime r.updated_at] Author.zero).2 ≠ none := by
  rcases r with ⟨_ | i, _ | n, _ | c, _ | u⟩ <;>
    simp [scanInto, getOneDests, ptrInt64, ptrString, ptrTime, Value.ofInt, Value.ofString,
      Value.ofTime] at h ⊢

theorem tableStmt_Close_after_prepare (f : Faults) (q : Query) (s : MySQL) :
    ((tableStmt f q s.nextStmt).Close
      { s with stmts := s.nextStmt :: s.stmts, nextStmt := s.nextStmt + 1 }).2.stmts = s.stmts := by
  simp [tableStmt]

/-! ## The three methods on the table driver -/

/-- The outcome of `GetByID` on the table driver, path by path. -/
theorem GetByID_tableDB (f : Faults) (ctx : Context) (id : Int) (s : MySQL) :
    AuthorRepository.GetByID ⟨tableDB f⟩ ctx id s =
      match ctx.Err with
      | some e => ((Author.zero, some e), s)
      | none =>
        match f.prepare with
        | some e => ((Author.zero, some e), s)
        | none =>
          match f.query with
          | some e =>
            ((Author.zero, some e),
              { s with stmts := s.nextStmt :: s.stmts, nextStmt := s.nextStmt + 1 })
          | none =>
            match s.author.find? fun r => decide (r.id = some id) with
            | none =>
              ((Author.zero, some (f.rowsClose.getD .ErrNoRows)),
                { s with stmts := s.nextStmt :: s.stmts, nextStmt := s.nextStmt + 1 })
            | some r =>
              (match scanInto getOneDests
                  [Value.ofInt r.id, Value.ofString r.name, Value.ofTime r.created_at,
                    Value.ofTime r.updated_at] Author.zero with
                | (res1, some e) => (res1, some e)
                | (res1, none) => (res1, f.rowsClose),
                { s with stmts := s.nextStmt :: s.stmts, nextStmt := s.nextStmt + 1 }) := by
  have hfun : (fun r : AuthorRow => idIsCol (.int id) r.id) = fun r => decide (r.id = some id) := by
    funext r; exact idIsCol_int id r.id
  rcases hc : ctx.Err with _ | e
  · rcases hf : f.prepare with _ | e
    · rcases hq : f.query with _ | e
      · rcases hr : (s.author.find? fun r => decide (r.id = some id)) with _ | r
        · rcases hcl : f.rowsClose with _ | e <;>
            simp [AuthorRepository.GetByID, AuthorRepository.getOne, tableDB, tableStmt,
              getByIDQuery, Query.valid, AuthorRow.get, MySQL.select, MySQL.acquire,
              MySQL.release, Row.Scan, hc, hf, hq, hr, hcl, hfun]
        · rcases hsc : scanInto getOneDests
              [Value.ofInt r.id, Value.ofString r.name, Value.ofTime r.created_at,
                Value.ofTime r.updated_at] Author.zero with ⟨res1, _ | e⟩ <;>
            simp [AuthorRepository.GetByID, AuthorRepository.getOne, tableDB, tableStmt,
              getByIDQuery, Query.valid, AuthorRow.get, MySQL.select, MySQL.acquire,
              MySQL.release, Row.Scan, project, getOneDests, hc, hf, hq, hr, hfun, hsc] <;>
            simp [getOneDests] at hsc <;> simp [hsc]
      · simp [AuthorRepository.GetByID, AuthorRepository.getOne, tableDB, tableStmt,
          getByIDQuery, Query.valid, AuthorRow.get, MySQL.acquire, MySQL.release,
          Row.Scan, errRow, hc, hf, hq]
    · simp [AuthorRepository.GetByID, AuthorRepository.getOne, tableDB, hc, hf]
  · simp [AuthorRepository.GetByID, AuthorRepository.getOne, tableDB, hc]

/-- The outcome of `Delete` on the table driver, path by path. -/
theorem Delete_tableDB (f : Faults) (ctx : Context) (id : Int) (s : MySQL) :
    ArticleRepository.Delete ⟨tableDB f⟩ ctx id s =
      match ctx.Err with
      | some e => (some e, s)
      | none =>
        match f.prepare with
        | some e => (some e, s)
        | none =>
          match f.exec with
          | some e =>
            (some e, { s with stmts := s.nextStmt :: s.stmts, nextStmt := s.nextStmt + 1 })
          | none =>
            match f.result with
            | some e =>
              (some e,
                { s with
                  article := s.article.filter fun r => !decide (id = r.id),
                  stmts := s.nextStmt :: s.stmts, nextStmt := s.nextStmt + 1 })
            | none =>
              (if ((s.article.filter fun r => decide (id = r.id)).length : Int) ≠ 1 then
                  some (weirdBehavior ((s.article.filter fun r => decide (id = r.id)).length : Int))
                else none,
                { s with
                  article := s.article.filter fun r => !decide (id = r.id),
                  stmts := s.nextStmt :: s.stmts, nextStmt := s.nextStmt + 1 }) := by
  rcases hc : ctx.Err with _ | e
  · rcases hf : f.prepare with _ | e
    · rcases hq : f.exec with _ | e
      · rcases hr : f.result with _ | e
        · by_cases hn : ((s.article.filter fun r => decide (id = r.id)).length : Int) = 1 <;>
            simp [ArticleRepository.Delete, tableDB, tableStmt, deleteQuery, Query.valid,
              MySQL.run, MySQL.acquire, MySQL.release, mkResult, hc, hf, hq, hr, idIs_int, hn]
        · simp [ArticleRepository.Delete, tableDB, tableStmt, deleteQuery, Query.valid,
            MySQL.run, MySQL.acquire, MySQL.release, mkResult, hc, hf, hq, hr, idIs_int]
      · simp [ArticleRepository.Delete, tableDB, tableStmt, deleteQuery, Query.valid,
          MySQL.acquire, MySQL.release, hc, hf, hq]
    · simp [ArticleRepository.Delete, tableDB, hc, hf]
  · simp [ArticleRepository.Delete, tableDB, hc]

/-- The outcome of `Store` on the table driver, path by path. -/
theorem Store_tableDB (f : Faults) (ctx : Context) (a : Article) (s : MySQL) :
    ArticleRepository.Store ⟨tableDB f⟩ ctx a s =
      match ctx.Err with
      | some e => ((some e, a), s)
      | none =>
        match f.prepare with
        | some e => ((some e, a), s)
        | none =>
          match f.exec with
          | some e =>
            ((some e, a), { s with stmts := s.nextStmt :: s.stmts, nextStmt := s.nextStmt + 1 })
          | none =>
            match f.result with
            | some e =>
              ((some e, a),
                { s with
                  article := s.article ++
                    [⟨s.articleAutoInc, a.Title, a.Content, a.Author.ID,
                      s.columnTime (truncMicro a.UpdatedAt),
                      s.columnTime (truncMicro a.CreatedAt)⟩],
                  articleAutoInc := s.articleAutoInc + 1,
                  stmts := s.nextStmt :: s.stmts, nextStmt := s.nextStmt + 1 })
            | none =>
              ((none, { a with ID := s.articleAutoInc }),
                { s with
                  article := s.article ++
                    [⟨s.articleAutoInc, a.Title, a.Content, a.Author.ID,
                      s.columnTime (truncMicro a.UpdatedAt),
                      s.columnTime (truncMicro a.CreatedAt)⟩],
                  articleAutoInc := s.articleAutoInc + 1,
                  stmts := s.nextStmt :: s.stmts, nextStmt := s.nextStmt + 1 }) := by
  rcases hc : ctx.Err with _ | e
  · rcases hf : f.prepare with _ | e
    · rcases hq : f.exec with _ | e
      · rcases hr : f.result with _ | e
        · simp [ArticleRepository.Store, tableDB, tableStmt, storeQuery, storeArgs, Query.valid,
            ArticleRow.get, MySQL.run, MySQL.acquire, MySQL.release, mkResult, assignAll,
            ArticleRow.set, storeValue, hc, hf, hq, hr]
        · simp [ArticleRepository.Store, tableDB, tableStmt, storeQuery, storeArgs, Query.valid,
            ArticleRow.get, MySQL.run, MySQL.acquire, MySQL.release, mkResult, assignAll,
            ArticleRow.set, storeValue, hc, hf, hq, hr]
      · simp [ArticleRepository.Store, tableDB, tableStmt, storeQuery, Query.valid,
          ArticleRow.get, MySQL.acquire, MySQL.release, hc, hf, hq]
    · simp [ArticleRepository.Store, tableDB, hc, hf]
  · simp [ArticleRepository.Store, tableDB, hc]

/-! ## Deleting and inserting rows -/

theorem filter_length_one_split {α : Type} (p : α → Bool) (l : List α)
    (h : (l.filter p).length = 1) :
    ∃ l1 r l2, l = l1 ++ r :: l2 ∧ p r = true ∧ (∀ x ∈ l1 ++ l2, p x = false) ∧
      l.filter (fun x => !p x) = l1 ++ l2 := by
  induction l with
  | nil => simp at h
  | cons x xs ih =>
    by_cases hx : p x = true
    · have hnil : xs.filter p = [] := by
        have : (xs.filter p).length = 0 := by simpa [List.filter_cons, hx] using h
        exact List.length_eq_zero.mp this
      have hall : ∀ y ∈ xs, p y = false := by
        intro y hy
        have := (List.filter_eq_nil_iff.mp hnil) y hy
        simpa using this
      refine ⟨[], x, xs, rfl, hx, by simpa using hall, ?_⟩
      have hkeep : xs.filter (fun y => !p y) = xs :=
        List.filter_eq_self.mpr (by intro y hy; simp [hall y hy])
      simp [List.filter_cons, hx, hkeep]
    · have hx0 : p x = false := by simpa using hx
      have h1 : (xs.filter p).length = 1 := by simpa [List.filter_cons, hx0] using h
      obtain ⟨l1, r, l2, hl, hr, hall, hf⟩ := ih h1
      refine ⟨x :: l1, r, l2, by simp [hl], hr, ?_, ?_⟩
      · intro y hy
        have hy1 : y = x ∨ y ∈ l1 ++ l2 := by simpa using hy
        rcases hy1 with rfl | hy2
        · exact hx0
        · exact hall y hy2
      · simp [List.filter_cons, hx0, hf]

/-- Claim C2. For every article table and every id that no row of it has,
`Delete` returns a non-nil error on every path and leaves the tables as they
were; when no driver step fails the error is the one built for a count of zero
affected rows. -/
theorem Delete_missing_id_errors (f : Faults) (ctx : Context) (id : Int) (s : MySQL)
    (h : ∀ r ∈ s.article, r.id ≠ id) :
    (ArticleRepository.Delete ⟨tableDB f⟩ ctx id s).1 ≠ none ∧
      (ArticleRepository.Delete ⟨tableDB f⟩ ctx id s).2.article = s.article ∧
      (ArticleRepository.Delete ⟨tableDB f⟩ ctx id s).2.author = s.author ∧
      (ctx.Err = none → f.prepare = none → f.exec = none → f.result = none →
        (ArticleRepository.Delete ⟨tableDB f⟩ ctx id s).1 = some (weirdBehavior 0)) := by
  have hnil : (s.article.filter fun r => decide (id = r.id)) = [] :=
    List.filter_eq_nil_iff.mpr (by intro r hr; simpa using fun e => h r hr e.symm)
  have hkeep : (s.article.filter fun r => !decide (id = r.id)) = s.article :=
    List.filter_eq_self.mpr (by intro r hr; simpa using fun e => h r hr e.symm)
  rw [Delete_tableDB, hnil, hkeep]
  rcases hc : ctx.Err with _ | e <;> rcases hp : f.prepare with _ | e <;>
    rcases hq : f.exec with _ | e <;> rcases hr : f.result with _ | e <;> simp

/-- Claim C3. For every article table and every id that exactly one row of it
has, when no driver step fails `Delete` returns nil and the article table
afterwards is the table before with that one row taken out: the rows before
it and after it, all of another id, are kept as they are and in their order. -/
theorem Delete_existing_id_removes_row (f : Faults) (ctx : Context) (id : Int) (s : MySQL)
    (hc : ctx.Err = none) (hp : f.prepare = none) (hq : f.exec = none) (hr : f.result = none)
    (h : (s.article.filter fun r => decide (r.id = id)).length = 1) :
    (ArticleRepository.Delete ⟨tableDB f⟩ ctx id s).1 = none ∧
      (ArticleRepository.Delete ⟨tableDB f⟩ ctx id s).2.author = s.author ∧
      (ArticleRepository.Delete ⟨tableDB f⟩ ctx id s).2.article =
        s.article.filter (fun r => decide (r.id ≠ id)) ∧
      ∃ l1 r l2, s.article = l1 ++ r :: l2 ∧ r.id = id ∧ (∀ x ∈ l1 ++ l2, x.id ≠ id) ∧
        (ArticleRepository.Delete ⟨tableDB f⟩ ctx id s).2.article = l1 ++ l2 := by
  have hfun : (fun r : ArticleRow => decide (id = r.id)) = fun r => decide (r.id = id) := by
    funext r; simp [eq_comm]
  have hfun2 : (fun r : ArticleRow => !decide (id = r.id)) = fun r => decide (r.id ≠ id) := by
    funext r; simp [eq_comm]
  obtain ⟨l1, r, l2, hl, hrid, hall, hfil⟩ :=
    filter_length_one_split (fun r : ArticleRow => decide (r.id = id)) s.article h
  have hfil2 : s.article.filter (fun r => decide (r.id ≠ id)) = l1 ++ l2 := by
    rw [← hfil]; congr 1; funext x; simp
  rw [Delete_tableDB, hc, hp, hq, hr, hfun, hfun2]
  simp only [h, Nat.cast_one, ne_eq, not_true_eq_false, if_false, true_and]
  refine ⟨l1, r, l2, hl, by simpa using hrid, fun x hx => ?_, hfil2⟩
  simpa using hall x hx

/-- Claim C5, as amended. The author table has an integer column `id`, a string
column `name` and timestamp columns `created_at` and `updated_at`, each of
which may hold `NULL`.  When no row has the id, `GetByID` returns a non-nil
error on every path, and `sql.ErrNoRows` when no driver step fails.  When a
row has the id, the first such row decides: if its `name`, `created_at` or
`updated_at` is `NULL`, the error is non-nil on every path; if none is `NULL`
and no driver step fails (the context is not done, `PrepareContext`, the query
and the closing of the result set succeed), the error is nil and the `ID`,
`Name`, `CreatedAt` and `UpdatedAt` of the returned `Author` are the `id`,
`name`, `created_at` and `updated_at` of that row. -/
theorem GetByID_row_or_error (f : Faults) (ctx : Context) (id : Int) (s : MySQL) :
    ((∀ r ∈ s.author, r.id ≠ some id) →
      (AuthorRepository.GetByID ⟨tableDB f⟩ ctx id s).1.2 ≠ none ∧
      (ctx.Err = none → f.prepare = none → f.query = none → f.rowsClose = none →
        (AuthorRepository.GetByID ⟨tableDB f⟩ ctx id s).1.2 = some .ErrNoRows)) ∧
    ((∃ r ∈ s.author, r.id = some id) →
      ∃ r, s.author.find? (fun r => decide (r.id = some id)) = some r ∧ r ∈ s.author ∧
        r.id = some id ∧
        ((r.name = none ∨ r.created_at = none ∨ r.updated_at = none) →
          (AuthorRepository.GetByID ⟨tableDB f⟩ ctx id s).1.2 ≠ none) ∧
        (ctx.Err = none → f.prepare = none → f.query = none → f.rowsClose = none →
          ∀ name created updated, r.name = some name → r.created_at = some created →
            r.updated_at = some updated →
            (AuthorRepository.GetByID ⟨tableDB f⟩ ctx id s).1 =
              ({ ID := id, Name := name, CreatedAt := created, UpdatedAt := updated }, none))) := by
  rw [GetByID_tableDB]
  constructor
  · intro h
    have hnone : s.author.find? (fun r => decide (r.id = some id)) = none :=
      List.find?_eq_none.mpr (by intro r hr; simpa using h r hr)
    rw [hnone]
    rcases hc : ctx.Err with _ | e <;> rcases hp : f.prepare with _ | e <;>
      rcases hq : f.query with _ | e <;> rcases hcl : f.rowsClose with _ | e <;> simp
  · rintro ⟨r0, hr0, hid0⟩
    rcases hfind : s.author.find? (fun r => decide (r.id = some id)) with _ | r
    · have := List.find?_eq_none.mp hfind r0 hr0
      simp [hid0] at this
    · have hid : r.id = some id := by simpa using List.find?_some hfind
      refine ⟨r, hfind, List.mem_of_find?_eq_some hfind, hid, ?_, ?_⟩
      · intro hnull
        have hsc := scanInto_author_null r (Or.inr hnull)
        rw [hfind]
        rcases hs : scanInto getOneDests
            [Value.ofInt r.id, Value.ofString r.name, Value.ofTime r.created_at,
              Value.ofTime r.updated_at] Author.zero with ⟨res1, _ | e⟩
        · rw [hs] at hsc; simp at hsc
        · rcases hc : ctx.Err with _ | e <;> rcases hp : f.prepare with _ | e <;>
            rcases hq : f.query with _ | e <;> simp [hs]
      · intro hc hp hq hcl name created updated hn hcr hu
        simp only [hfind, hc, hp, hq, hcl]
        simp [hid, hn, hcr, hu, Value.ofInt, Value.ofString, Value.ofTime, scanInto_author]

/-- Claim C6. A driver step that fails with `e` makes the call return exactly `e`
in the state that step left, for `GetByID` (`PrepareContext`, then `Scan`, whose
outcome is returned as it is), `Store` (`PrepareContext`, `ExecContext`,
`LastInsertId`) and `Delete` (`PrepareContext`, `ExecContext`, `RowsAffected`);
and every error a call returns is the error of one of its driver steps, except
the error `Delete` builds from a count of affected rows other than 1. -/
theorem driver_errors_returned_unchanged {σ : Type} (db : DB σ) (ctx : Context) (s : σ) :
    (∀ id e s1, db.PrepareContext ctx getByIDQuery s = (.error e, s1) →
      AuthorRepository.GetByID ⟨db⟩ ctx id s = ((Author.zero, some e), s1)) ∧
    (∀ id stmt s1, db.PrepareContext ctx getByIDQuery s = (.ok stmt, s1) →
      AuthorRepository.GetByID ⟨db⟩ ctx id s =
        (stmt.QueryRowContext ctx [.int id] s1).1.Scan getOneDests Author.zero
          (stmt.QueryRowContext ctx [.int id] s1).2) ∧
    (∀ a e s1, db.PrepareContext ctx storeQuery s = (.error e, s1) →
      ArticleRepository.Store ⟨db⟩ ctx a s = ((some e, a), s1)) ∧
    (∀ a stmt s1 e s2, db.PrepareContext ctx storeQuery s = (.ok stmt, s1) →
      stmt.ExecContext ctx (storeArgs a) s1 = (.error e, s2) →
      ArticleRepository.Store ⟨db⟩ ctx a s = ((some e, a), s2)) ∧
    (∀ a stmt s1 res s2 e, db.PrepareContext ctx storeQuery s = (.ok stmt, s1) →
      stmt.ExecContext ctx (storeArgs a) s1 = (.ok res, s2) → res.LastInsertId = .error e →
      ArticleRepository.Store ⟨db⟩ ctx a s = ((some e, a), s2)) ∧
    (∀ id e s1, db.PrepareContext ctx deleteQuery s = (.error e, s1) →
      ArticleRepository.Delete ⟨db⟩ ctx id s = (some e, s1)) ∧
    (∀ id stmt s1 e s2, db.PrepareContext ctx deleteQuery s = (.ok stmt, s1) →
      stmt.ExecContext ctx [.int id] s1 = (.error e, s2) →
      ArticleRepository.Delete ⟨db⟩ ctx id s = (some e, s2)) ∧
    (∀ id stmt s1 res s2 e, db.PrepareContext ctx deleteQuery s = (.ok stmt, s1) →
      stmt.ExecContext ctx [.int id] s1 = (.ok res, s2) → res.RowsAffected = .error e →
      ArticleRepository.Delete ⟨db⟩ ctx id s = (some e, s2)) ∧
    (∀ id x, (AuthorRepository.GetByID ⟨db⟩ ctx id s).1.2 = some x →
      (∃ s1, db.PrepareContext ctx getByIDQuery s = (.error x, s1)) ∨
      (∃ stmt s1, db.PrepareContext ctx getByIDQuery s = (.ok stmt, s1) ∧
        ((stmt.QueryRowContext ctx [.int id] s1).1.Scan getOneDests Author.zero
          (stmt.QueryRowContext ctx [.int id] s1).2).1.2 = some x)) ∧
    (∀ a x, (ArticleRepository.Store ⟨db⟩ ctx a s).1.1 = some x →
      (∃ s1, db.PrepareContext ctx storeQuery s = (.error x, s1)) ∨
      (∃ stmt s1 s2, db.PrepareContext ctx storeQuery s = (.ok stmt, s1) ∧
        stmt.ExecContext ctx (storeArgs a) s1 = (.error x, s2)) ∨
      (∃ stmt s1 res s2, db.PrepareContext ctx storeQuery s = (.ok stmt, s1) ∧
        stmt.ExecContext ctx (storeArgs a) s1 = (.ok res, s2) ∧ res.LastInsertId = .error x)) ∧
    (∀ id x, (ArticleRepository.Delete ⟨db⟩ ctx id s).1 = some x →
      (∃ s1, db.PrepareContext ctx deleteQuery s = (.error x, s1)) ∨
      (∃ stmt s1 s2, db.PrepareContext ctx deleteQuery s = (.ok stmt, s1) ∧
        stmt.ExecContext ctx [.int id] s1 = (.error x, s2)) ∨
      (∃ stmt s1 res s2, db.PrepareContext ctx deleteQuery s = (.ok stmt, s1) ∧
        stmt.ExecContext ctx [.int id] s1 = (.ok res, s2) ∧ res.RowsAffected = .error x) ∨
      (∃ stmt s1 res s2 n, db.PrepareContext ctx deleteQuery s = (.ok stmt, s1) ∧
        stmt.ExecContext ctx [.int id] s1 = (.ok res, s2) ∧ res.RowsAffected = .ok n ∧
        n ≠ 1 ∧ x = weirdBehavior n)) := by
  refine ⟨?_, ?_, ?_, ?_, ?_, ?_, ?_, ?_, ?_, ?_, ?_⟩
  · intro id e s1 hp
    exact getOne_prepare_error ⟨db⟩ ctx getByIDQuery [.int id] s s1 e hp
  · intro id stmt s1 hp
    exact getOne_scanned ⟨db⟩ ctx getByIDQuery [.int id] s s1 stmt hp
  · intro a e s1 hp
    exact Store_prepare_error ⟨db⟩ ctx a s s1 e hp
  · intro a stmt s1 e s2 hp he
    exact Store_exec_error ⟨db⟩ ctx a s s1 s2 stmt e hp he
  · intro a stmt s1 res s2 e hp he hl
    exact Store_lastInsertId_error ⟨db⟩ ctx a s s1 s2 stmt res e hp he hl
  · intro id e s1 hp
    exact Delete_prepare_error ⟨db⟩ ctx id s s1 e hp
  · intro id stmt s1 e s2 hp he
    exact Delete_exec_error ⟨db⟩ ctx id s s1 s2 stmt e hp he
  · intro id stmt s1 res s2 e hp he hr
    exact Delete_rowsAffected_error ⟨db⟩ ctx id s s1 s2 stmt res e hp he hr
  · intro id x hx
    rcases hp : db.PrepareContext ctx getByIDQuery s with ⟨e | stmt, s1⟩
    · have h := getOne_prepare_error ⟨db⟩ ctx getByIDQuery [.int id] s s1 e hp
      have hx2 : (AuthorRepository.getOne ⟨db⟩ ctx getByIDQuery [.int id] s).1.2 = some x := hx
      rw [h] at hx2
      have : e = x := by simpa using hx2
      exact Or.inl ⟨s1, by rw [this]⟩
    · have h := getOne_scanned ⟨db⟩ ctx getByIDQuery [.int id] s s1 stmt hp
      have hx2 : (AuthorRepository.getOne ⟨db⟩ ctx getByIDQuery [.int id] s).1.2 = some x := hx
      rw [h] at hx2
      exact Or.inr ⟨stmt, s1, rfl, hx2⟩
  · intro a x hx
    rcases Store_cases ⟨db⟩ ctx a s with ⟨e, s1, hp, hs⟩ | ⟨stmt, s1, e, s2, hp, he, hs⟩ |
      ⟨stmt, s1, res, s2, e, hp, he, hl, hs⟩ | ⟨stmt, s1, res, s2, lastID, hp, he, hl, hs⟩
    · rw [hs] at hx
      have : e = x := by simpa using hx
      exact Or.inl ⟨s1, this ▸ hp⟩
    · rw [hs] at hx
      have : e = x := by simpa using hx
      exact Or.inr (Or.inl ⟨stmt, s1, s2, hp, this ▸ he⟩)
    · rw [hs] at hx
      have : e = x := by simpa using hx
      exact Or.inr (Or.inr ⟨stmt, s1, res, s2, hp, he, this ▸ hl⟩)
    · rw [hs] at hx; simp at hx
  · intro id x hx
    rcases Delete_cases ⟨db⟩ ctx id s with ⟨e, s1, hp, hs⟩ | ⟨stmt, s1, e, s2, hp, he, hs⟩ |
      ⟨stmt, s1, res, s2, e, hp, he, hr, hs⟩ | ⟨stmt, s1, res, s2, n, hp, he, hr, hs⟩
    · rw [hs] at hx
      have : e = x := by simpa using hx
      exact Or.inl ⟨s1, this ▸ hp⟩
    · rw [hs] at hx
      have : e = x := by simpa using hx
      exact Or.inr (Or.inl ⟨stmt, s1, s2, hp, this ▸ he⟩)
    · rw [hs] at hx
      have : e = x := by simpa using hx
      exact Or.inr (Or.inr (Or.inl ⟨stmt, s1, res, s2, hp, he, this ▸ hr⟩))
    · rw [hs] at hx
      by_cases hn : n = 1
      · simp [hn] at hx
      · have : weirdBehavior n = x := by simpa [hn] using hx
        exact Or.inr (Or.inr (Or.inr ⟨stmt, s1, res, s2, n, hp, he, hr, hn, this.symm⟩))

/-- Claim C9, as amended. On the table driver every call of `GetByID`, `Store` and
`Delete` gives back each connection it used: the number of connections checked
out is the same after the call as before, on success and on error.  The
prepared statement is never closed: when `PrepareContext` fails the open
statement handles are as before, and when it succeeds the handle it opened is
still open after the call, in addition to those open before. -/
theorem calls_release_connection_keep_statement (f : Faults) (ctx : Context) (s : MySQL) :
    (∀ id,
      (AuthorRepository.GetByID ⟨tableDB f⟩ ctx id s).2.conns = s.conns ∧
      ((ctx.Err ≠ none ∨ f.prepare ≠ none) →
        (AuthorRepository.GetByID ⟨tableDB f⟩ ctx id s).2.stmts = s.stmts) ∧
      (ctx.Err = none → f.prepare = none →
        (AuthorRepository.GetByID ⟨tableDB f⟩ ctx id s).2.stmts = s.nextStmt :: s.stmts)) ∧
    (∀ a,
      (ArticleRepository.Store ⟨tableDB f⟩ ctx a s).2.conns = s.conns ∧
      ((ctx.Err ≠ none ∨ f.prepare ≠ none) →
        (ArticleRepository.Store ⟨tableDB f⟩ ctx a s).2.stmts = s.stmts) ∧
      (ctx.Err = none → f.prepare = none →
        (ArticleRepository.Store ⟨tableDB f⟩ ctx a s).2.stmts = s.nextStmt :: s.stmts)) ∧
    (∀ id,
      (ArticleRepository.Delete ⟨tableDB f⟩ ctx id s).2.conns = s.conns ∧
      ((ctx.Err ≠ none ∨ f.prepare ≠ none) →
        (ArticleRepository.Delete ⟨tableDB f⟩ ctx id s).2.stmts = s.stmts) ∧
      (ctx.Err = none → f.prepare = none →
        (ArticleRepository.Delete ⟨tableDB f⟩ ctx id s).2.stmts = s.nextStmt :: s.stmts)) := by
  refine ⟨fun id => ?_, fun a => ?_, fun id => ?_⟩
  · rw [GetByID_tableDB]
    rcases hc : ctx.Err with _ | e <;> rcases hp : f.prepare with _ | e <;>
      rcases hq : f.query with _ | e <;>
      rcases hr : (s.author.find? fun r => decide (r.id = some id)) with _ | r <;> simp [hr]
  · rw [Store_tableDB]
    rcases hc : ctx.Err with _ | e <;> rcases hp : f.prepare with _ | e <;>
      rcases hq : f.exec with _ | e <;> rcases hr : f.result with _ | e <;> simp
  · rw [Delete_tableDB]
    rcases hc : ctx.Err with _ | e <;> rcases hp : f.prepare with _ | e <;>
      rcases hq : f.exec with _ | e <;> rcases hr : f.result with _ | e <;> simp

/-! ## The statements at concrete inputs -/

/-- Deleting article 2 of `demo`, where one row is reported affected, returns nil. -/
theorem Delete_error_iff_rows_ne_one_witness :
    ((ArticleRepository.Delete ⟨tableDB noFaults⟩ background 2 demo).1 ≠ none ↔ (1 : Int) ≠ 1) ∧
      ((ArticleRepository.Delete ⟨tableDB noFaults⟩ background 2 demo).1 = none ↔ (1 : Int) = 1) ∧
      ((1 : Int) ≠ 1 →
        (ArticleRepository.Delete ⟨tableDB noFaults⟩ background 2 demo).1 =
          some (weirdBehavior 1)) :=
  Delete_error_iff_rows_ne_one ⟨tableDB noFaults⟩ background 2 demo
    ((tableDB noFaults).PrepareContext background deleteQuery demo).2
    ((tableStmt noFaults deleteQuery 0).ExecContext background [.int 2]
      ((tableDB noFaults).PrepareContext background deleteQuery demo).2).2
    (tableStmt noFaults deleteQuery 0) (mkResult noFaults 0 1) 1 rfl rfl rfl

/-- No article of `demo` has id 7, and deleting it fails with the error for a
count of zero. -/
theorem Delete_missing_id_errors_witness :
    (∀ r ∈ demo.article, r.id ≠ 7) ∧
      (ArticleRepository.Delete ⟨tableDB noFaults⟩ background 7 demo).1 =
        some (.errorf "weird  Behavior. Total Affected: 0") ∧
      (ArticleRepository.Delete ⟨tableDB noFaults⟩ background 7 demo).2.article = demo.article :=
  ⟨by decide,
    (Delete_missing_id_errors noFaults background 7 demo (by decide)).2.2.2 rfl rfl rfl rfl,
    (Delete_missing_id_errors noFaults background 7 demo (by decide)).2.1⟩

/-- Exactly one article of `demo` has id 2, and deleting it leaves the other
article. -/
theorem Delete_existing_id_removes_row_witness :
    (demo.article.filter fun r => decide (r.id = 2)).length = 1 ∧
      (ArticleRepository.Delete ⟨tableDB noFaults⟩ background 2 demo).1 = none ∧
      (ArticleRepository.Delete ⟨tableDB noFaults⟩ background 2 demo).2.article =
        demo.article.filter (fun r => decide (r.id ≠ 2)) :=
  ⟨by decide,
    (Delete_existing_id_removes_row noFaults background 2 demo rfl rfl rfl rfl (by decide)).1,
    (Delete_existing_id_removes_row noFaults background 2 demo rfl rfl rfl rfl (by decide)).2.2.1⟩

/-- Claim C4 fails as stated. On a handle whose `LastInsertId` reports 0,
`Store` returns nil and the `ID` of the record, 7 before the call, is 0. -/
theorem Store_nil_with_zero_ID :
    demoArticle.ID = 7 ∧
      (ArticleRepository.Store ⟨zeroIDConn⟩ background demoArticle ()).1.1 = none ∧
      (ArticleRepository.Store ⟨zeroIDConn⟩ background demoArticle ()).1.2.ID = 0 ∧
      ¬ ((ArticleRepository.Store ⟨zeroIDConn⟩ background demoArticle ()).1.1 = none →
        (ArticleRepository.Store ⟨zeroIDConn⟩ background demoArticle ()).1.2.ID ≠ 0) := by
  decide

/-- Storing `demoArticle` in `demo` succeeds. -/
theorem Store_nil_ID_nonzero_iff_witness :
    (ArticleRepository.Store ⟨tableDB noFaults⟩ background demoArticle demo).1.1 = none ∧
      ∃ stmt s1 res s2 lastID,
        (tableDB noFaults).PrepareContext background storeQuery demo = (.ok stmt, s1) ∧
        stmt.ExecContext background (storeArgs demoArticle) s1 = (.ok res, s2) ∧
        res.LastInsertId = .ok lastID ∧
        ((ArticleRepository.Store ⟨tableDB noFaults⟩ background demoArticle demo).1.2.ID ≠ 0 ↔
          lastID ≠ 0) :=
  ⟨by decide,
    Store_nil_ID_nonzero_iff ⟨tableDB noFaults⟩ background demoArticle demo (by decide)⟩

/-- Claim C5 fails as stated. The author table of `demo` has a row with id 2,
and `GetByID` called for it with a cancelled context returns a non-nil error;
it has a row with id 3 whose `name` is `NULL`, and `GetByID` called for it
returns a non-nil error although no driver step fails. -/
theorem GetByID_existing_row_cancelled :
    (∃ r ∈ demo.author, r.id = some 2) ∧
      (AuthorRepository.GetByID ⟨tableDB noFaults⟩ cancelled 2 demo).1 =
        (Author.zero, some (.driver "context canceled")) ∧
      ¬ ((∃ r ∈ demo.author, r.id = some 2) →
        (AuthorRepository.GetByID ⟨tableDB noFaults⟩ cancelled 2 demo).1.2 = none) ∧
      (∃ r ∈ demo.author, r.id = some 3) ∧
      (AuthorRepository.GetByID ⟨tableDB noFaults⟩ background 3 demo).1.2 ≠ none := by
  decide

/-- No author of `demo` has id 5, the author with id 3 has no name, and the
author with id 2 has all its columns. -/
theorem GetByID_row_or_error_witness :
    ((∀ r ∈ demo.author, r.id ≠ some 5) ∧
      (AuthorRepository.GetByID ⟨tableDB noFaults⟩ background 5 demo).1.2 = some .ErrNoRows) ∧
    ((∃ r ∈ demo.author, r.id = some 3) ∧
      (AuthorRepository.GetByID ⟨tableDB noFaults⟩ background 3 demo).1.2 ≠ none) ∧
    ((∃ r ∈ demo.author, r.id = some 2) ∧
      (AuthorRepository.GetByID ⟨tableDB noFaults⟩ background 2 demo).1 =
        ({ ID := 2, Name := "bob", CreatedAt := ⟨11000⟩, UpdatedAt := ⟨21000⟩ }, none)) :=
  ⟨⟨by decide,
    ((GetByID_row_or_error noFaults background 5 demo).1 (by decide)).2 rfl rfl rfl rfl⟩,
   ⟨by decide,
    (GetByID_row_or_error noFaults background 3 demo).2 (by decide) |>.elim fun r hr =>
      hr.2.2.2.1 (Or.inl (by
        have h3 := hr.1
        have : r = ⟨some 3, none, some ⟨12000⟩, some ⟨22000⟩⟩ :=
          Option.some.inj (h3.symm.trans (by decide))
        rw [this]))⟩,
   ⟨by decide,
    (GetByID_row_or_error noFaults background 2 demo).2 (by decide) |>.elim fun r hr =>
      hr.2.2.2.2 rfl rfl rfl rfl "bob" ⟨11000⟩ ⟨21000⟩
        (by
          have : r = ⟨some 2, some "bob", some ⟨11000⟩, some ⟨21000⟩⟩ :=
            Option.some.inj (hr.1.symm.trans (by decide))
          rw [this])
        (by
          have : r = ⟨some 2, some "bob", some ⟨11000⟩, some ⟨21000⟩⟩ :=
            Option.some.inj (hr.1.symm.trans (by decide))
          rw [this])
        (by
          have : r = ⟨some 2, some "bob", some ⟨11000⟩, some ⟨21000⟩⟩ :=
            Option.some.inj (hr.1.symm.trans (by decide))
          rw [this])⟩⟩

/-- Storing `demoArticle` in `demo` gives it the identifier the driver reports. -/
theorem Store_nil_sets_ID_only_witness :
    (ArticleRepository.Store ⟨tableDB noFaults⟩ background demoArticle demo).1.1 = none ∧
      ∃ stmt s1 res s2 lastID,
        (tableDB noFaults).PrepareContext background storeQuery demo = (.ok stmt, s1) ∧
        stmt.ExecContext background (storeArgs demoArticle) s1 = (.ok res, s2) ∧
        res.LastInsertId = .ok lastID ∧
        (ArticleRepository.Store ⟨tableDB noFaults⟩ background demoArticle demo).1.2.ID = lastID ∧
        (ArticleRepository.Store ⟨tableDB noFaults⟩ background demoArticle demo).1.2.Title =
          demoArticle.Title ∧
        (ArticleRepository.Store ⟨tableDB noFaults⟩ background demoArticle demo).1.2.Content =
          demoArticle.Content ∧
        (ArticleRepository.Store ⟨tableDB noFaults⟩ background demoArticle demo).1.2.Author =
          demoArticle.Author ∧
        (ArticleRepository.Store ⟨tableDB noFaults⟩ background demoArticle demo).1.2.UpdatedAt =
          demoArticle.UpdatedAt ∧
        (ArticleRepository.Store ⟨tableDB noFaults⟩ background demoArticle demo).1.2.CreatedAt =
          demoArticle.CreatedAt :=
  ⟨by decide,
    Store_nil_sets_ID_only ⟨tableDB noFaults⟩ background demoArticle demo (by decide)⟩

/-- Storing `demoArticle` when `LastInsertId` fails leaves the record alone. -/
theorem Store_error_leaves_record_witness :
    (ArticleRepository.Store ⟨tableDB failingResult⟩ background
        demoArticle demo).1.1 ≠ none ∧
      (ArticleRepository.Store ⟨tableDB failingResult⟩ background
        demoArticle demo).1.2 = demoArticle :=
  ⟨by decide,
    Store_error_leaves_record ⟨tableDB failingResult⟩ background
      demoArticle demo (by decide)⟩

/-- Claim C9 fails as stated. In `demo` no statement is open; after a
successful `Delete`, after a successful `Store` and after a successful
`GetByID` the statement the call prepared is still open. -/
theorem calls_leave_statement_open :
    demo.stmts = [] ∧
      (ArticleRepository.Delete ⟨tableDB noFaults⟩ background 2 demo).1 = none ∧
      (ArticleRepository.Delete ⟨tableDB noFaults⟩ background 2 demo).2.stmts = [0] ∧
      (ArticleRepository.Store ⟨tableDB noFaults⟩ background demoArticle demo).1.1 = none ∧
      (ArticleRepository.Store ⟨tableDB noFaults⟩ background demoArticle demo).2.stmts = [0] ∧
      (AuthorRepository.GetByID ⟨tableDB noFaults⟩ background 2 demo).1.2 = none ∧
      (AuthorRepository.GetByID ⟨tableDB noFaults⟩ background 2 demo).2.stmts = [0] ∧
      (ArticleRepository.Delete ⟨tableDB noFaults⟩ background 2 demo).2.stmts ≠ demo.stmts ∧
      (ArticleRepository.Store ⟨tableDB noFaults⟩ background demoArticle demo).2.stmts ≠
        demo.stmts ∧
      (AuthorRepository.GetByID ⟨tableDB noFaults⟩ background 2 demo).2.stmts ≠ demo.stmts := by
  decide

/-- The three calls on `demo`, with a cancelled context and with a live one. -/
theorem calls_release_connection_keep_statement_witness :
    ((AuthorRepository.GetByID ⟨tableDB noFaults⟩ cancelled 2 demo).2.stmts = demo.stmts ∧
      (ArticleRepository.Store ⟨tableDB noFaults⟩ cancelled demoArticle demo).2.stmts =
        demo.stmts ∧
      (ArticleRepository.Delete ⟨tableDB noFaults⟩ cancelled 2 demo).2.stmts = demo.stmts) ∧
    ((AuthorRepository.GetByID ⟨tableDB noFaults⟩ background 2 demo).2.stmts =
        demo.nextStmt :: demo.stmts ∧
      (ArticleRepository.Store ⟨tableDB noFaults⟩ background demoArticle demo).2.stmts =
        demo.nextStmt :: demo.stmts ∧
      (ArticleRepository.Delete ⟨tableDB noFaults⟩ background 2 demo).2.stmts =
        demo.nextStmt :: demo.stmts) :=
  ⟨⟨((calls_release_connection_keep_statement noFaults cancelled demo).1 2).2.1
      (Or.inl (by decide)),
    ((calls_release_connection_keep_statement noFaults cancelled demo).2.1 demoArticle).2.1
      (Or.inl (by decide)),
    ((calls_release_connection_keep_statement noFaults cancelled demo).2.2 2).2.1
      (Or.inl (by decide))⟩,
   ⟨((calls_release_connection_keep_statement noFaults background demo).1 2).2.2 rfl rfl,
    ((calls_release_connection_keep_statement noFaults background demo).2.1 demoArticle).2.2
      rfl rfl,
    ((calls_release_connection_keep_statement noFaults background demo).2.2 2).2.2 rfl rfl⟩⟩

/-- Every step of every call failing in turn on the table driver, and the
errors the calls return on `demo`. -/
theorem driver_errors_returned_unchanged_witness :
    ((AuthorRepository.GetByID ⟨tableDB noFaults⟩ cancelled 2 demo).1 =
        (Author.zero, some (.driver "context canceled")) ∧
      (AuthorRepository.GetByID ⟨tableDB failingQuery⟩ background 2 demo).1 =
        (Author.zero, some badConn)) ∧
    ((ArticleRepository.Store ⟨tableDB noFaults⟩ cancelled demoArticle demo).1 =
        (some (.driver "context canceled"), demoArticle) ∧
      (ArticleRepository.Store ⟨tableDB failingExec⟩ background
        demoArticle demo).1 = (some badConn, demoArticle) ∧
      (ArticleRepository.Store ⟨tableDB failingResult⟩ background
        demoArticle demo).1 = (some badConn, demoArticle)) ∧
    ((ArticleRepository.Delete ⟨tableDB noFaults⟩ cancelled 2 demo).1 =
        some (.driver "context canceled") ∧
      (ArticleRepository.Delete ⟨tableDB failingExec⟩ background 2
        demo).1 = some badConn ∧
      (ArticleRepository.Delete ⟨tableDB failingResult⟩ background 2
        demo).1 = some badConn) ∧
    (((∃ s1, (tableDB noFaults).PrepareContext background getByIDQuery demo =
          (.error .ErrNoRows, s1)) ∨
        (∃ stmt s1, (tableDB noFaults).PrepareContext background getByIDQuery demo =
            (.ok stmt, s1) ∧
          ((stmt.QueryRowContext background [.int 5] s1).1.Scan getOneDests Author.zero
            (stmt.QueryRowContext background [.int 5] s1).2).1.2 = some .ErrNoRows)) ∧
      ((∃ s1, (tableDB failingExec).PrepareContext background
          storeQuery demo = (.error badConn, s1)) ∨
        (∃ stmt s1 s2, (tableDB failingExec).PrepareContext background
            storeQuery demo = (.ok stmt, s1) ∧
          stmt.ExecContext background (storeArgs demoArticle) s1 = (.error badConn, s2)) ∨
        (∃ stmt s1 res s2, (tableDB failingExec).PrepareContext
            background storeQuery demo = (.ok stmt, s1) ∧
          stmt.ExecContext background (storeArgs demoArticle) s1 = (.ok res, s2) ∧
          res.LastInsertId = .error badConn)) ∧
      ((∃ s1, (tableDB noFaults).PrepareContext background deleteQuery demo =
          (.error (weirdBehavior 0), s1)) ∨
        (∃ stmt s1 s2, (tableDB noFaults).PrepareContext background deleteQuery demo =
            (.ok stmt, s1) ∧
          stmt.ExecContext background [.int 7] s1 = (.error (weirdBehavior 0), s2)) ∨
        (∃ stmt s1 res s2, (tableDB noFaults).PrepareContext background deleteQuery demo =
            (.ok stmt, s1) ∧
          stmt.ExecContext background [.int 7] s1 = (.ok res, s2) ∧
          res.RowsAffected = .error (weirdBehavior 0)) ∨
        (∃ stmt s1 res s2 n, (tableDB noFaults).PrepareContext background deleteQuery demo =
            (.ok stmt, s1) ∧
          stmt.ExecContext background [.int 7] s1 = (.ok res, s2) ∧ res.RowsAffected = .ok n ∧
          n ≠ 1 ∧ weirdBehavior 0 = weirdBehavior n))) :=
  ⟨⟨congrArg Prod.fst
      ((driver_errors_returned_unchanged (tableDB noFaults) cancelled demo).1 2 _ demo rfl),
    (congrArg Prod.fst
      ((driver_errors_returned_unchanged (tableDB failingQuery) background demo).2.1
        2 _ _ rfl)).trans rfl⟩,
   ⟨congrArg Prod.fst
      ((driver_errors_returned_unchanged (tableDB noFaults) cancelled demo).2.2.1
        demoArticle _ demo rfl),
    congrArg Prod.fst
      ((driver_errors_returned_unchanged (tableDB failingExec)
        background demo).2.2.2.1 demoArticle _ _ badConn _ rfl rfl),
    congrArg Prod.fst
      ((driver_errors_returned_unchanged (tableDB failingResult)
        background demo).2.2.2.2.1 demoArticle _ _ _ _ badConn rfl rfl rfl)⟩,
   ⟨congrArg Prod.fst
      ((driver_errors_returned_unchanged (tableDB noFaults) cancelled demo).2.2.2.2.2.1
        2 _ demo rfl),
    congrArg Prod.fst
      ((driver_errors_returned_unchanged (tableDB failingExec)
        background demo).2.2.2.2.2.2.1 2 _ _ badConn _ rfl rfl),
    congrArg Prod.fst
      ((driver_errors_returned_unchanged (tableDB failingResult)
        background demo).2.2.2.2.2.2.2.1 2 _ _ _ _ badConn rfl rfl rfl)⟩,
   ⟨(driver_errors_returned_unchanged (tableDB noFaults) background demo).2.2.2.2.2.2.2.2.1
      5 .ErrNoRows (by decide),
    (driver_errors_returned_unchanged (tableDB failingExec)
      background demo).2.2.2.2.2.2.2.2.2.1 demoArticle badConn (by decide),
    (driver_errors_returned_unchanged (tableDB noFaults) background demo).2.2.2.2.2.2.2.2.2.2
      7 (weirdBehavior 0) (by decide)⟩⟩

end Mysql
